import Mathlib

/-!
Verification of the image-validation and vision-analysis core of the
Gemini Vision Analyzer repository (src/Sayan.py), as a shallow embedding.

The external collaborators (PIL's image decoder and the
google.generativeai client) are modelled as explicit function parameters:
decoding is a function from bytes to an `Except`-classified image, and the
remote client is a record of `configure` / `GenerativeModel` /
`generate_content` capabilities, a raised Python exception becoming an
`Except.error` carrying its description string.
-/

namespace Sayan

/-- A decoded in-memory image as produced by `PIL.Image.open`: its color
mode string (e.g. "RGB", "RGBA", "L", "P") and an abstract pixel buffer. -/
structure PILImage where
  mode : String
  data : List Nat
deriving Repr, DecidableEq

/-- `PIL.Image.convert(mode)`: re-encodes the pixel buffer in the target
mode; only the resulting mode matters to the validation contract. -/
def PILImage.convert (img : PILImage) (m : String) : PILImage :=
  { img with mode := m }

/-- The uploaded blob handed to `validate_image`: raw bytes plus the
declared byte size reported by the upload widget (`uploaded_file.size`). -/
structure UploadedBlob where
  bytes : List Nat
  size : Nat
deriving Repr, DecidableEq

/-- A decoder for image bytes, the role `PIL.Image.open` plays in
`validate_image`; a decode fault is `Except.error` with its message. -/
def Decoder : Type := List Nat → Except String PILImage

/-- Embedding of `validate_image` (src/Sayan.py lines 45-60), parameterized
by the external decoder.  Returns the `(is_valid, image, message)` triple. -/
def validate_image (decode : Decoder) (uploaded_file : Option UploadedBlob) :
    Bool × Option PILImage × String :=
  match uploaded_file with
  | none => (false, none, "No file uploaded.")
  | some blob =>
    if blob.size > 10 * 1024 * 1024 then
      (false, none, "File size exceeds 10MB limit.")
    else
      match decode blob.bytes with
      | Except.error e => (false, none, "Invalid image file: " ++ e)
      | Except.ok img =>
        let image :=
          if img.mode = "RGBA" ∨ img.mode = "LA" ∨ img.mode = "P" then
            img.convert "RGB"
          else
            img
        (true, some image, "Image validated successfully.")

/-- The response object returned by `generate_content`; its `text` field is
`none` when the model produced no text. -/
structure GenResponse where
  text : Option String
deriving Repr, DecidableEq

/-- Python truthiness of `response.text`: `None` and the empty string are
falsy, every other string (whitespace-only included) is truthy. -/
def pyTruthy : Option String → Bool
  | none => false
  | some s => !(s == "")

/-- A configured generative model handle (`genai.GenerativeModel(...)`);
its single capability is `generate_content`, taking the prompt and the
image and either returning a response or raising (`Except.error`). -/
structure GenModel where
  generate_content : String → PILImage → Except String GenResponse

/-- The `google.generativeai` module surface used by `__init__`:
`configure(api_key)` and the `GenerativeModel` constructor, each of which
may raise. -/
structure Genai where
  configure : String → Except String Unit
  GenerativeModel : String → Except String GenModel

/-- The analyzer instance: it holds the configured model handle
(`self.model`) for its lifetime. -/
structure GeminiVisionAnalyzer where
  model : GenModel

/-- Embedding of `GeminiVisionAnalyzer.__init__` (src/Sayan.py lines
16-26): configure the client with the key, construct the
'gemini-1.5-flash' model; any raised exception is logged and re-raised,
so construction propagates it as `Except.error`. -/
def GeminiVisionAnalyzer.init (genai : Genai) (api_key : String) :
    Except String GeminiVisionAnalyzer :=
  match genai.configure api_key with
  | Except.error e => Except.error e
  | Except.ok _ =>
    match genai.GenerativeModel "gemini-1.5-flash" with
    | Except.error e => Except.error e
    | Except.ok m => Except.ok ⟨m⟩

/-- Embedding of `GeminiVisionAnalyzer.analyze_image` (src/Sayan.py lines
28-42), instrumented with the list of remote requests issued (prompt and
image of each `generate_content` call).  The body builds the prompt, issues
the single request, and classifies the outcome exactly as the source does. -/
def GeminiVisionAnalyzer.analyze_image_run (self : GeminiVisionAnalyzer)
    (image : PILImage) (question : String) :
    (Bool × String) × List (String × PILImage) :=
  let prompt := "Please analyze this image and answer the following question: " ++ question
  let requests := [(prompt, image)]
  match self.model.generate_content prompt image with
  | Except.ok response =>
    if pyTruthy response.text then
      ((true, response.text.getD ""), requests)
    else
      ((false, "No response generated from the model."), requests)
  | Except.error e =>
    ((false, "Error during image analysis: " ++ e), requests)

/-- The `(success, message)` pair `analyze_image` returns to its caller. -/
def GeminiVisionAnalyzer.analyze_image (self : GeminiVisionAnalyzer)
    (image : PILImage) (question : String) : Bool × String :=
  (self.analyze_image_run image question).1

/-- Modelled from the spec: the configuration step of the remote client
(`google.generativeai.configure`), whose code is not part of this
repository, rejects an empty credential string with an error and accepts
any non-empty credential (spec: "an opaque non-empty string used to
configure the remote service client"; "construction fails if Credential
is empty"). -/
def genai_configure_spec (api_key : String) : Except String Unit :=
  if api_key = "" then
    Except.error "API key must be a non-empty string."
  else
    Except.ok ()

/-- Modelled from the spec: the remote client module with the
spec-mandated credential check, the model constructor succeeding once the
client is configured, with `gen` the behavior of the remote inference
call. -/
def genai_spec (gen : String → PILImage → Except String GenResponse) : Genai :=
  { configure := genai_configure_spec
    GenerativeModel := fun _ => Except.ok ⟨gen⟩ }

/-- Claim C8: when no file is supplied, `validate_image` fails with the
"No file uploaded." error before any size check or decode attempt (the
decoder is never consulted: the result is the same for every decoder). -/
theorem validate_no_file (decode : Decoder) :
    validate_image decode none = (false, none, "No file uploaded.") := rfl

/-- Claim C3: every blob whose declared size strictly exceeds
10 × 1024 × 1024 bytes is rejected with the size error, for every decoder
(hence without decoding, and regardless of the byte content). -/
theorem validate_oversize_rejected (decode : Decoder) (blob : UploadedBlob)
    (h : blob.size > 10 * 1024 * 1024) :
    validate_image decode (some blob) =
      (false, none, "File size exceeds 10MB limit.") := by
  simp [validate_image, h]

/-- Witness for C3: a blob of 10 MiB + 1 bytes whose content a decoder
would happily decode is still rejected for size. -/
theorem validate_oversize_rejected_witness :
    validate_image (fun _ => Except.ok ⟨"RGB", [1]⟩)
        (some ⟨[1], 10 * 1024 * 1024 + 1⟩) =
      (false, none, "File size exceeds 10MB limit.") :=
  validate_oversize_rejected (fun _ => Except.ok ⟨"RGB", [1]⟩)
    ⟨[1], 10 * 1024 * 1024 + 1⟩ (by decide)

/-- Claim C10: a blob of exactly 10 × 1024 × 1024 bytes is not rejected
for size — the comparison is strict — so `validate_image` proceeds to
decode it: a decode fault yields the decode error and a decode success
yields a valid result. -/
theorem validate_at_exact_limit (decode : Decoder) (blob : UploadedBlob)
    (h : blob.size = 10 * 1024 * 1024) :
    (∀ e, decode blob.bytes = Except.error e →
      validate_image decode (some blob) =
        (false, none, "Invalid image file: " ++ e)) ∧
    ∀ img, decode blob.bytes = Except.ok img →
      (validate_image decode (some blob)).1 = true := by
  have hsz : ¬ blob.size > 10 * 1024 * 1024 := by omega
  constructor
  · intro e he
    simp [validate_image, hsz, he]
  · intro img hi
    simp [validate_image, hsz, hi]

/-- Witness for C10: a decodable blob of exactly 10 MiB validates. -/
theorem validate_at_exact_limit_witness :
    (validate_image (fun _ => Except.ok ⟨"RGB", [1]⟩)
        (some ⟨[1], 10 * 1024 * 1024⟩)).1 = true :=
  (validate_at_exact_limit (fun _ => Except.ok ⟨"RGB", [1]⟩)
      ⟨[1], 10 * 1024 * 1024⟩ rfl).2 ⟨"RGB", [1]⟩ rfl

/-- Claim C9: the image component of `validate_image`'s result is `none`
exactly when the ok flag is `false`, over every decoder and input. -/
theorem validate_image_none_iff_failed (decode : Decoder)
    (uploaded_file : Option UploadedBlob) :
    (validate_image decode uploaded_file).2.1 = none ↔
      (validate_image decode uploaded_file).1 = false := by
  cases uploaded_file with
  | none => simp [validate_image]
  | some blob =>
    by_cases h : blob.size > 10 * 1024 * 1024
    · simp [validate_image, h]
    · cases hdec : decode blob.bytes with
      | error e => simp [validate_image, h, hdec]
      | ok img => simp [validate_image, h, hdec]

/-- Counterexample to C1 as stated: a blob that decodes to a grayscale
image (mode "L") is accepted by `validate_image` with its mode left as
"L", not converted to three-channel "RGB" — only the modes "RGBA", "LA"
and "P" are converted. -/
theorem validate_grayscale_kept_counterexample :
    (validate_image (fun _ => Except.ok ⟨"L", [7]⟩) (some ⟨[1], 4⟩)).1 = true ∧
    (validate_image (fun _ => Except.ok ⟨"L", [7]⟩) (some ⟨[1], 4⟩)).2.1 =
      some ⟨"L", [7]⟩ ∧
    ("L" : String) ≠ "RGB" := by
  exact ⟨rfl, rfl, by decide⟩

/-- Claim C1 amended: for every blob whose bytes decode successfully and
whose size is within the ceiling, `validate_image` succeeds, and the
returned image's mode is "RGB" exactly when the decoded input's mode was
"RGBA", "LA", "P" or already "RGB"; any other decoded mode (e.g. "L",
"CMYK") is kept unchanged. -/
theorem validate_mode_normalized (decode : Decoder) (blob : UploadedBlob)
    (img : PILImage) (hsize : ¬ blob.size > 10 * 1024 * 1024)
    (hdec : decode blob.bytes = Except.ok img) :
    (validate_image decode (some blob)).1 = true ∧
    ((validate_image decode (some blob)).2.1.map PILImage.mode = some "RGB" ↔
      (img.mode = "RGBA" ∨ img.mode = "LA" ∨ img.mode = "P" ∨
        img.mode = "RGB")) := by
  constructor
  · simp [validate_image, hsize, hdec]
  · by_cases hm : img.mode = "RGBA" ∨ img.mode = "LA" ∨ img.mode = "P"
    · simp [validate_image, hsize, hdec, hm, PILImage.convert]
      tauto
    · simp [validate_image, hsize, hdec, hm, PILImage.convert]
      constructor
      · intro h
        exact Or.inr (Or.inr (Or.inr h))
      · intro h
        rcases h with h | h | h | h
        · exact absurd (Or.inl h) hm
        · exact absurd (Or.inr (Or.inl h)) hm
        · exact absurd (Or.inr (Or.inr h)) hm
        · exact h

/-- Witness for C1 amended: an RGBA input under the ceiling validates and
comes out with mode "RGB". -/
theorem validate_mode_normalized_witness :
    (validate_image (fun _ => Except.ok ⟨"RGBA", [1]⟩) (some ⟨[1], 9⟩)).1 =
      true ∧
    ((validate_image (fun _ => Except.ok ⟨"RGBA", [1]⟩)
          (some ⟨[1], 9⟩)).2.1.map PILImage.mode = some "RGB" ↔
      (("RGBA" : String) = "RGBA" ∨ ("RGBA" : String) = "LA" ∨
        ("RGBA" : String) = "P" ∨ ("RGBA" : String) = "RGB")) :=
  validate_mode_normalized (fun _ => Except.ok ⟨"RGBA", [1]⟩) ⟨[1], 9⟩
    ⟨"RGBA", [1]⟩ (by decide) rfl

/-- Claim C2: if the remote call raises a fault, `analyze_image` catches
it and returns a failure whose message is "Error during image analysis: "
followed by the fault's description; the embedding is a total function,
so no exception propagates and every call yields exactly one result. -/
theorem analyze_image_fault_caught (self : GeminiVisionAnalyzer)
    (image : PILImage) (question e : String)
    (h : self.model.generate_content
        ("Please analyze this image and answer the following question: " ++
          question) image = Except.error e) :
    self.analyze_image image question =
      (false, "Error during image analysis: " ++ e) := by
  simp [GeminiVisionAnalyzer.analyze_image,
    GeminiVisionAnalyzer.analyze_image_run, h]

/-- Witness for C2: a remote call raising "boom" becomes the classified
failure pair. -/
theorem analyze_image_fault_caught_witness :
    (⟨⟨fun _ _ => Except.error "boom"⟩⟩ :
        GeminiVisionAnalyzer).analyze_image ⟨"RGB", [1]⟩ "q" =
      (false, "Error during image analysis: " ++ "boom") :=
  analyze_image_fault_caught ⟨⟨fun _ _ => Except.error "boom"⟩⟩ ⟨"RGB", [1]⟩
    "q" "boom" rfl

/-- Counterexample to C4 as stated: a remote response whose text is the
whitespace-only string " " is truthy in Python, so `analyze_image`
returns success carrying " ", not the "No response generated from the
model." failure the claim requires for blank text. -/
theorem analyze_blank_success_counterexample :
    (⟨⟨fun _ _ => Except.ok ⟨some " "⟩⟩⟩ :
        GeminiVisionAnalyzer).analyze_image ⟨"RGB", [1]⟩ "q" = (true, " ") ∧
    ((true, " ") : Bool × String) ≠
      (false, "No response generated from the model.") := by
  exact ⟨rfl, by decide⟩

/-- Claim C4 amended: when the remote call succeeds, `analyze_image`
returns the failure "No response generated from the model." exactly when
the returned text is falsy (absent or the empty string); any non-empty
text — whitespace-only included — is returned unmodified as a success. -/
theorem analyze_empty_text_classified (self : GeminiVisionAnalyzer)
    (image : PILImage) (question : String) (response : GenResponse)
    (h : self.model.generate_content
        ("Please analyze this image and answer the following question: " ++
          question) image = Except.ok response) :
    (pyTruthy response.text = false →
      self.analyze_image image question =
        (false, "No response generated from the model.")) ∧
    ∀ s, response.text = some s → s ≠ "" →
      self.analyze_image image question = (true, s) := by
  constructor
  · intro ht
    simp [GeminiVisionAnalyzer.analyze_image,
      GeminiVisionAnalyzer.analyze_image_run, h, ht]
  · intro s hs hne
    have ht : pyTruthy (some s) = true := by simp [pyTruthy, hne]
    simp [GeminiVisionAnalyzer.analyze_image,
      GeminiVisionAnalyzer.analyze_image_run, h, hs, ht]

/-- Witness for C4 amended: an empty-string response text yields the
"No response generated from the model." failure. -/
theorem analyze_empty_text_classified_witness :
    (⟨⟨fun _ _ => Except.ok ⟨some ""⟩⟩⟩ :
        GeminiVisionAnalyzer).analyze_image ⟨"RGB", [1]⟩ "q" =
      (false, "No response generated from the model.") :=
  (analyze_empty_text_classified ⟨⟨fun _ _ => Except.ok ⟨some ""⟩⟩⟩
      ⟨"RGB", [1]⟩ "q" ⟨some ""⟩ rfl).1 rfl

/-- Claim C6: every `analyze_image` call issues exactly one remote
request, whose prompt is exactly the fixed template concatenated with the
question and whose payload is the image. -/
theorem analyze_single_exact_prompt (self : GeminiVisionAnalyzer)
    (image : PILImage) (question : String) :
    (self.analyze_image_run image question).2 =
      [("Please analyze this image and answer the following question: " ++
          question, image)] := by
  cases h : self.model.generate_content
      ("Please analyze this image and answer the following question: " ++
        question) image with
  | ok r =>
    cases ht : pyTruthy r.text <;>
      simp [GeminiVisionAnalyzer.analyze_image_run, h, ht]
  | error e => simp [GeminiVisionAnalyzer.analyze_image_run, h]

/-- Claim C7: every failure outcome of `validate_image` or
`analyze_image` carries a non-empty message string. -/
theorem failure_message_nonempty (decode : Decoder)
    (uploaded_file : Option UploadedBlob) (self : GeminiVisionAnalyzer)
    (image : PILImage) (question : String) :
    ((validate_image decode uploaded_file).1 = false →
      (validate_image decode uploaded_file).2.2 ≠ "") ∧
    ((self.analyze_image image question).1 = false →
      (self.analyze_image image question).2 ≠ "") := by
  constructor
  · intro hfail
    cases uploaded_file with
    | none => simp [validate_image]
    | some blob =>
      by_cases h : blob.size > 10 * 1024 * 1024
      · simp [validate_image, h]
      · cases hdec : decode blob.bytes with
        | error e =>
          simp only [validate_image, h, hdec, if_false]
          intro hc
          have hd := congrArg String.data hc
          simp [String.data_append] at hd
        | ok img => simp [validate_image, h, hdec] at hfail
  · intro hfail
    cases hgen : self.model.generate_content
        ("Please analyze this image and answer the following question: " ++
          question) image with
    | ok response =>
      by_cases ht : pyTruthy response.text
      · simp [GeminiVisionAnalyzer.analyze_image,
          GeminiVisionAnalyzer.analyze_image_run, hgen, ht] at hfail
      · simp [GeminiVisionAnalyzer.analyze_image,
          GeminiVisionAnalyzer.analyze_image_run, hgen, ht]
    | error e =>
      simp only [GeminiVisionAnalyzer.analyze_image,
        GeminiVisionAnalyzer.analyze_image_run, hgen]
      intro hc
      have hd := congrArg String.data hc
      simp [String.data_append] at hd

/-- Witness for C7: the no-file validation failure and a fault-raised
analysis failure both carry non-empty messages. -/
theorem failure_message_nonempty_witness :
    (validate_image (fun _ => Except.error "x") none).2.2 ≠ "" ∧
    ((⟨⟨fun _ _ => Except.error "x"⟩⟩ :
        GeminiVisionAnalyzer).analyze_image ⟨"RGB", [1]⟩ "q").2 ≠ "" :=
  ⟨(failure_message_nonempty (fun _ => Except.error "x") none
      ⟨⟨fun _ _ => Except.error "x"⟩⟩ ⟨"RGB", [1]⟩ "q").1 rfl,
   (failure_message_nonempty (fun _ => Except.error "x") none
      ⟨⟨fun _ _ => Except.error "x"⟩⟩ ⟨"RGB", [1]⟩ "q").2 rfl⟩

/-- Claim C5: constructing the analyzer through the spec-modelled remote
client fails when the credential string is empty, and succeeds with any
non-empty accepted credential, yielding an instance that holds the
configured model and returns exactly one result on every one of
arbitrarily many `analyze_image` calls. -/
theorem create_with_credential
    (gen : String → PILImage → Except String GenResponse)
    (api_key : String) :
    (api_key = "" →
      GeminiVisionAnalyzer.init (genai_spec gen) api_key =
        Except.error "API key must be a non-empty string.") ∧
    (api_key ≠ "" →
      GeminiVisionAnalyzer.init (genai_spec gen) api_key =
        Except.ok ⟨⟨gen⟩⟩ ∧
      ∀ image question, ∃ r : Bool × String,
        (⟨⟨gen⟩⟩ : GeminiVisionAnalyzer).analyze_image image question = r) := by
  constructor
  · intro h
    simp [GeminiVisionAnalyzer.init, genai_spec, genai_configure_spec, h]
  · intro h
    refine ⟨?_, fun image question => ⟨_, rfl⟩⟩
    simp [GeminiVisionAnalyzer.init, genai_spec, genai_configure_spec, h]

/-- Witness for C5: an empty key is rejected and the key "VALID_KEY" is
accepted, over a stubbed remote call. -/
theorem create_with_credential_witness :
    GeminiVisionAnalyzer.init
        (genai_spec (fun _ _ => Except.ok ⟨some "The object is red."⟩)) "" =
      Except.error "API key must be a non-empty string." ∧
    GeminiVisionAnalyzer.init
        (genai_spec (fun _ _ => Except.ok ⟨some "The object is red."⟩))
        "VALID_KEY" =
      Except.ok ⟨⟨fun _ _ => Except.ok ⟨some "The object is red."⟩⟩⟩ :=
  ⟨(create_with_credential (fun _ _ => Except.ok ⟨some "The object is red."⟩)
      "").1 rfl,
   ((create_with_credential (fun _ _ => Except.ok ⟨some "The object is red."⟩)
      "VALID_KEY").2 (by decide)).1⟩

end Sayan
